import Mathlib

/-
  Verification development for the weather CLI (src/weather_app.py, src/config.py).

  The Python program is shallowly embedded: Python floats become ℚ (CLI and JSON
  numbers here all have finite decimal expansions, and CPython renders such floats
  by their shortest decimal form, which the rendering function below reproduces);
  decoded JSON documents become the inductive `Json`; each Python exception class
  of the program becomes a constructor of `AppError`; fallible code returns
  `Except AppError _`.  External collaborators (the `json` codec, the `usaddress`
  parsing library, the HTTP transport, the MAPS_API_KEY environment variable) are
  inputs of the model, collected in `World`; the behaviour of repository code on
  every collaborator outcome is what the definitions reproduce.
-/

/-- One constructor per exception class the program can raise: the seven classes
declared in weather_app.py plus the builtin Python exceptions its code paths can
produce (`ValueError`, `TypeError`, `KeyError`, `IndexError`, `AttributeError`). -/
inductive AppError where
  | buildUrlError (msg : String)
  | fetchUrlDataError (msg : String)
  | fetchWeatherDataError (msg : String)
  | getCoordsFromAddressError (msg : String)
  | parsedArgumentError (msg : String)
  | addressMissingError (msg : String)
  | parseAddressError (msg : String)
  | valueError (msg : String)
  | typeError (msg : String)
  | keyError (msg : String)
  | indexError (msg : String)
  | attributeError (msg : String)
deriving DecidableEq, Repr

/-- The message carried by an exception (what `str(e)` / `logging.error(e)` shows). -/
def AppError.msg : AppError → String
  | .buildUrlError m => m
  | .fetchUrlDataError m => m
  | .fetchWeatherDataError m => m
  | .getCoordsFromAddressError m => m
  | .parsedArgumentError m => m
  | .addressMissingError m => m
  | .parseAddressError m => m
  | .valueError m => m
  | .typeError m => m
  | .keyError m => m
  | .indexError m => m
  | .attributeError m => m

/-- Decoded JSON values.  Python distinguishes `int` and `float` results of
`json.loads` (they print differently), hence the two numeric constructors. -/
inductive Json where
  | null
  | bool (b : Bool)
  | intNum (n : Int)
  | num (q : ℚ)
  | str (s : String)
  | arr (xs : List Json)
  | obj (fields : List (String × Json))
deriving Repr

/-- Association-list lookup with Python `dict` semantics: on duplicate keys the
last binding wins (as it would after `json.loads`). -/
def jsonLookup (fields : List (String × Json)) (k : String) : Option Json :=
  ((fields.filter (fun p => p.1 == k)).getLast?).map (fun p => p.2)

/-- Python truthiness (`bool(x)`) of a decoded JSON value. -/
def jsonTruthy : Json → Bool
  | .null => false
  | .bool b => b
  | .intNum n => n != 0
  | .num q => q != 0
  | .str s => s != ""
  | .arr xs => !xs.isEmpty
  | .obj fs => !fs.isEmpty

/-- Does `pat` occur as a prefix of some suffix of the list (substring test)? -/
def containsSub (pat : List Char) : List Char → Bool
  | [] => pat.isEmpty
  | c :: t => pat.isPrefixOf (c :: t) || containsSub pat t

/-- Python `pat in s` for strings: substring containment. -/
def strContains (s pat : String) : Bool :=
  containsSub pat.toList s.toList

/-- Python `s.strip()`: drop leading and trailing whitespace. -/
def pyStrip (s : String) : String :=
  String.mk (((s.toList.dropWhile Char.isWhitespace).reverse.dropWhile
    Char.isWhitespace).reverse)

/-- Decimal digits of a remainder `rem/den` by long division, most significant
first, stopping when the remainder is exhausted or after `fuel` digits. -/
def fracDigitsN : Nat → Nat → Nat → List Nat
  | 0, _, _ => []
  | fuel + 1, rem, den =>
    let r10 := rem * 10
    let d := r10 / den
    let r := r10 % den
    if r = 0 then [d] else d :: fracDigitsN fuel r den

/-- CPython rendering `str(x)` of a float with a short decimal expansion:
sign, integer part, a dot, then the fractional digits by long division on the
reduced numerator and denominator (`"0"` when the value is integral, as in
`str(47.0) = "47.0"`). -/
def floatStr (q : ℚ) : String :=
  let n := (if q < 0 then -q else q).num.toNat
  let den := (if q < 0 then -q else q).den
  (if q < 0 then "-" else "") ++ toString (n / den) ++ "." ++
    (if n % den = 0 then "0" else
      String.join ((fracDigitsN 17 (n % den) den).map (fun d => toString d)))

/-- Python `str(x)` of a scalar JSON value, as interpolated by an f-string.
Container reprs are not needed by any code path under proof. -/
def pyStrJson : Json → String
  | .null => "None"
  | .bool true => "True"
  | .bool false => "False"
  | .intNum n => toString n
  | .num q => floatStr q
  | .str s => s
  | .arr _ => "<list>"
  | .obj _ => "<dict>"

/-- Split a character list at the first decimal-exponent marker `e`/`E`. -/
def splitExp (cs : List Char) : List Char × Option (List Char) :=
  let m := cs.takeWhile (fun c => c != 'e' && c != 'E')
  let r := cs.dropWhile (fun c => c != 'e' && c != 'E')
  match r with
  | [] => (m, none)
  | _ :: t => (m, some t)

/-- Split a character list at the first dot. -/
def splitDot (cs : List Char) : List Char × List Char :=
  let m := cs.takeWhile (fun c => c != '.')
  let r := cs.dropWhile (fun c => c != '.')
  match r with
  | [] => (m, [])
  | _ :: t => (m, t)

/-- Value of a digit list, most significant first. -/
def digitsVal (cs : List Char) : Nat :=
  cs.foldl (fun a c => a * 10 + (c.toNat - 48)) 0

/-- Optional leading sign of a numeric literal. -/
def takeSign (cs : List Char) : Int × List Char :=
  match cs with
  | '+' :: r => (1, r)
  | '-' :: r => (-1, r)
  | r => (1, r)

/-- Python `float(s)` on a string: strip whitespace, optional sign, digits with
an optional dot and an optional exponent.  (`inf`/`nan` literals are outside the
model; no code path under proof feeds them.) -/
def parsePyFloat (s : String) : Option ℚ :=
  let cs := (pyStrip s).toList
  let (sgn, cs) := takeSign cs
  let (mant, expPart) := splitExp cs
  let (ipart, fpart) := splitDot mant
  if !(ipart.all Char.isDigit) || !(fpart.all Char.isDigit) then none
  else if ipart.isEmpty && fpart.isEmpty then none
  else
    let base : ℚ := (digitsVal ipart : ℚ) + (digitsVal fpart : ℚ) / ((10 : ℚ) ^ fpart.length)
    match expPart with
    | none => some ((sgn : ℚ) * base)
    | some ecs =>
      let (esgn, eds) := takeSign ecs
      if eds.isEmpty || !(eds.all Char.isDigit) then none
      else some ((sgn : ℚ) * base * (10 : ℚ) ^ (esgn * (digitsVal eds : Int)))

/-- Python `float(x)` applied to a decoded JSON value: numbers and bools convert,
numeric strings parse (`ValueError` otherwise), anything else is a `TypeError`. -/
def pyFloatE : Json → Except AppError ℚ
  | .null => .error (.typeError "float() argument must be a string or a real number, not NoneType")
  | .bool b => .ok (if b then 1 else 0)
  | .intNum n => .ok (n : ℚ)
  | .num q => .ok q
  | .str s =>
    match parsePyFloat s with
    | some q => .ok q
    | none => .error (.valueError ("could not convert string to float: \x27" ++ s ++ "\x27"))
  | .arr _ => .error (.typeError "float() argument must be a string or a real number, not list")
  | .obj _ => .error (.typeError "float() argument must be a string or a real number, not dict")

/-- Configuration constants from src/config.py (APIConfig). -/
def APIConfig.DEFAULT_PARAMS : String :=
  "current=temperature_2m,wind_speed_10m&temperature_unit=fahrenheit&wind_speed_unit=mph&timezone=auto"

/-- Geocoding endpoint from src/config.py. -/
def APIConfig.GEOCODE_BASE_URL : String := "https://geocode.maps.co/search"

/-- Forecast endpoint from src/config.py. -/
def APIConfig.WEATHER_BASE_URL : String := "https://api.open-meteo.com/v1/forecast"

/-- `validate_latitude_longitude` from weather_app.py: two guarded range checks. -/
def validate_latitude_longitude (latitude longitude : ℚ) : Bool :=
  if !(decide (-90 ≤ latitude) && decide (latitude ≤ 90)) then false
  else if !(decide (-180 ≤ longitude) && decide (longitude ≤ 180)) then false
  else true

/-- `build_url` from weather_app.py.  The two `float(...)` coercions run first
under a bare `except:` (so both `ValueError` and `TypeError` become
`BuildUrlError`); a failing longitude coercion formats the already-converted
latitude.  The subsequent `if latitude is None` test in the source is
unreachable (Python `float` never returns `None`) and adds no branch here.
The `verbose` parameter of the source is unused by it. -/
def build_url (latitude longitude : Json) : Except AppError String :=
  match pyFloatE latitude with
  | .error _ =>
    .error (.buildUrlError ("Lat/long must be numerical values. Received: Latitude: " ++
      pyStrJson latitude ++ ", Longitude: " ++ pyStrJson longitude))
  | .ok la =>
    match pyFloatE longitude with
    | .error _ =>
      .error (.buildUrlError ("Lat/long must be numerical values. Received: Latitude: " ++
        floatStr la ++ ", Longitude: " ++ pyStrJson longitude))
    | .ok lo =>
      if !(validate_latitude_longitude la lo) then
        .error (.buildUrlError ("Invalid lat/long provided. Latitude: " ++ floatStr la ++
          ", Longitude: " ++ floatStr lo))
      else
        .ok (APIConfig.WEATHER_BASE_URL ++ "?latitude=" ++ floatStr la ++ "&longitude=" ++
          floatStr lo ++ "&" ++ APIConfig.DEFAULT_PARAMS)

/-- The argparse namespace produced before the explicit validation block of
`parse_args`: each optional flag is absent (`none`) or has its converted value. -/
structure Namespace where
  address : Option String
  latitude : Option ℚ
  longitude : Option ℚ
  verbose : Bool
deriving DecidableEq, Repr

/-- The validation block of `parse_args` from weather_app.py: the four checks in
source order, returning the unchanged namespace when all pass. -/
def parse_args (ns : Namespace) : Except AppError Namespace :=
  if ns.address.isSome && (ns.latitude.isSome || ns.longitude.isSome) then
    .error (.parsedArgumentError "Address and latitude/longitude cannot be provided together.")
  else if ns.latitude.isSome != ns.longitude.isSome then
    .error (.parsedArgumentError "Both latitude and longitude must be provided together.")
  else if ns.latitude.isNone && ns.address.isNone then
    .error (.parsedArgumentError
      "Either \x27--latitude\x27 and \x27--longitude\x27 pair, or \x27--address\x27 must be provided.")
  else if ns.latitude.isSome && ns.longitude.isSome then
    match ns.latitude, ns.longitude with
    | some la, some lo =>
      if !(validate_latitude_longitude la lo) then
        .error (.parsedArgumentError "Invalid latitude and/or longitude values provided.")
      else .ok ns
    | _, _ => .ok ns
  else .ok ns

/-- Python truthiness of an optional string flag (`None` and `""` are falsy). -/
def pyTruthyStrOpt : Option String → Bool
  | none => false
  | some s => s != ""

/-- Python truthiness of an optional float flag (`None` and `0.0` are falsy). -/
def pyTruthyFloatOpt : Option ℚ → Bool
  | none => false
  | some q => q != 0

/-- The payload of a `usaddress.RepeatedLabelError`. -/
structure RepeatedLabelErrorData where
  parsed_string : String
  original_string : String
deriving DecidableEq, Repr

/-- Outcome of the `usaddress.parse` collaborator: a structural parse conflict,
or no result (the `is not None` guard in the source), or the labeled
`(token, label)` components. -/
abbrev UsaddressResult := Except RepeatedLabelErrorData (Option (List (String × String)))

/-- `sanitize_address` from weather_app.py, with the `usaddress.parse` outcome
supplied as an input (the source calls the parser twice on the same string;
both calls see the same outcome).  The `verbose` branch only logs. -/
def sanitize_address (address : String) (parseResult : UsaddressResult) :
    Except AppError String :=
  if address == "" || pyStrip address == "" then
    .error (.valueError ("Missing address. Input provided: " ++ address))
  else
    match parseResult with
    | .error e =>
      .error (.parseAddressError ("Error parsing address: " ++ e.parsed_string ++ ", " ++
        e.original_string))
    | .ok none =>
      .error (.addressMissingError ("Missing address from \x27usaddress\x27. Input provided: " ++
        address))
    | .ok (some comps) =>
      .ok (String.intercalate " " (comps.map (fun p => p.1)))

/-- `parse_json_response` from weather_app.py, with the `json.loads` collaborator
passed as `decode` (its error value is the decoder message that the raised
`ValueError` wraps). -/
def parse_json_response (decode : String → Except String Json) (response : String) :
    Except AppError Json :=
  match decode response with
  | .ok j => .ok j
  | .error e => .error (.valueError ("Malformed JSON response: " ++ e))

/-- Python `x[0]` on a decoded JSON value: list head, first character of a
nonempty string; a JSON object has no integer key, and other values are not
subscriptable. -/
def pyIndex0 : Json → Except AppError Json
  | .arr (x :: _) => .ok x
  | .arr [] => .error (.indexError "list index out of range")
  | .str s =>
    if s == "" then .error (.indexError "string index out of range")
    else .ok (.str (s.take 1))
  | .obj _ => .error (.keyError "0")
  | _ => .error (.typeError "object is not subscriptable")

/-- Python `x[k]` for a string key `k`. -/
def pySubscript (data : Json) (k : String) : Except AppError Json :=
  match data with
  | .obj fs =>
    match jsonLookup fs k with
    | some v => .ok v
    | none => .error (.keyError k)
  | .arr _ => .error (.typeError "list indices must be integers or slices, not str")
  | .str _ => .error (.typeError "string indices must be integers")
  | _ => .error (.typeError "object is not subscriptable")

/-- Python `k in x` for a string `k`: key test on dicts, membership on lists
(a JSON string element can equal `k`, nothing else can), substring test on
strings, `TypeError` elsewhere. -/
def pyIn (data : Json) (k : String) : Except AppError Bool :=
  match data with
  | .obj fs => .ok ((jsonLookup fs k).isSome)
  | .arr xs =>
    .ok (xs.any (fun x => match x with | .str s => s == k | _ => false))
  | .str s => .ok (strContains s k)
  | _ => .error (.typeError "argument is not iterable")

/-- The `WeatherData` dataclass from weather_app.py. -/
structure WeatherData where
  latitude : ℚ
  longitude : ℚ
  current : Json
deriving Repr

/-- `WeatherData.from_dict` from weather_app.py: the `all(key in data ...)`
membership test over the three required keys, then the field coercions in
keyword order (`float` on latitude and longitude, `current` taken as is). -/
def WeatherData.from_dict (data : Json) : Except AppError WeatherData := do
  let h1 ← pyIn data "latitude"
  let h2 ← pyIn data "longitude"
  let h3 ← pyIn data "current"
  if !(h1 && h2 && h3) then
    .error (.valueError "Missing required fields in weather data")
  else do
    let laj ← pySubscript data "latitude"
    let la ← pyFloatE laj
    let loj ← pySubscript data "longitude"
    let lo ← pyFloatE loj
    let cur ← pySubscript data "current"
    .ok ⟨la, lo, cur⟩

/-- Python `x.get(k)` (`dict.get`, defaulting to `None`): only dicts have the
method, anything else raises `AttributeError`. -/
def pyDictGet (d : Json) (k : String) : Except AppError (Option Json) :=
  match d with
  | .obj fs => .ok (jsonLookup fs k)
  | _ => .error (.attributeError "object has no attribute get")

/-- f-string interpolation of a possibly-absent value (`None` prints as such). -/
def pyStrOpt : Option Json → String
  | none => "None"
  | some j => pyStrJson j

/-- The body of the `try` block of `display_weather_data`: parse the response,
build the `WeatherData`, and format the single print call. -/
def display_weather_inner (decode : String → Except String Json) (response : String) :
    Except AppError String := do
  let data ← parse_json_response decode response
  let wd ← WeatherData.from_dict data
  let t ← pyDictGet wd.current "temperature_2m"
  let w ← pyDictGet wd.current "wind_speed_10m"
  .ok ("Temperature:\t" ++ pyStrOpt t ++ "°\nWind Speed:\t" ++ pyStrOpt w ++ " MPH")

/-- What `display_weather_data` did: the lines it printed, the error lines it
logged, and the exception it let escape (if any). -/
structure DisplayResult where
  printed : List String
  logged : List String
  raised : Option AppError
deriving DecidableEq, Repr

/-- `display_weather_data` from weather_app.py: its `except ValueError` clause
logs `"Failed to parse weather data: ..."` and swallows the exception; every
other exception escapes to the caller. -/
def display_weather_data (decode : String → Except String Json) (response : String) :
    DisplayResult :=
  match display_weather_inner decode response with
  | .ok line => ⟨[line], [], none⟩
  | .error (.valueError m) => ⟨[], ["Failed to parse weather data: " ++ m], none⟩
  | .error e => ⟨[], [], some e⟩

/-- State of the `WeatherAPI` singleton and its urllib3 pool across one process:
the stored instance (identified by its construction number), how many times the
pool was constructed, how many `with`-scopes were entered, how many times
`http.clear()` ran, and the instance identity returned by each acquisition. -/
structure PoolState where
  instId : Option Nat
  nextId : Nat
  constructions : Nat
  acquisitions : Nat
  clears : Nat
  idsReturned : List Nat
deriving DecidableEq, Repr

/-- Pool state at interpreter start: no instance yet. -/
def PoolState.init : PoolState := ⟨none, 1, 0, 0, 0, []⟩

/-- `WeatherAPI.get_instance` (with the identical re-check in `__new__`): the
lazy-init check constructs the pool only when no instance is stored, and returns
the stored instance. -/
def get_instance (s : PoolState) : PoolState × Nat :=
  match s.instId with
  | some i => ({ s with idsReturned := s.idsReturned ++ [i] }, i)
  | none =>
    let i := s.nextId
    ({ s with instId := some i, nextId := i + 1, constructions := s.constructions + 1,
              idsReturned := s.idsReturned ++ [i] }, i)

/-- `with WeatherAPI.get_instance() as weather_api: ...`: acquire the singleton,
run the body, and run `__exit__` (which calls `self.http.clear()`) whether the
body succeeded or raised. -/
def withPool {α : Type} (s : PoolState) (body : Nat → Except AppError α) :
    PoolState × Except AppError α :=
  let p := get_instance s
  let r := body p.2
  ({ p.1 with acquisitions := p.1.acquisitions + 1, clears := p.1.clears + 1 }, r)

/-- Outcomes of every external collaborator of the program: `usaddress.parse`
per input string, `json.loads` per body, the HTTP transport per URL (which only
produces `FetchUrlDataError` failures), and the MAPS_API_KEY environment
variable. -/
structure World where
  usaddressParse : String → UsaddressResult
  decode : String → Except String Json
  fetch : String → Except AppError String
  mapsApiKey : Option String

/-- f-string interpolation of the possibly-unset MAPS_API_KEY. -/
def optStrPy : Option String → String
  | none => "None"
  | some s => s

/-- The geocoding query URL built inside `get_coords_from_address`. -/
def geocodeQueryUrl (w : World) (address : String) : String :=
  APIConfig.GEOCODE_BASE_URL ++ "?q=" ++ address ++ "&api_key=" ++ optStrPy w.mapsApiKey

/-- `get_coords_from_address` from weather_app.py: fetch inside a `with` scope,
parse the body (a `ValueError` from `parse_json_response` propagates unwrapped:
the `except` clause only catches `FetchUrlDataError`, which it rewraps as
`GetCoordsFromAddressError`), raise `GetCoordsFromAddressError` on a falsy
decoded value, touch `coords[0]` fields when verbose, and return the full
decoded value. -/
def get_coords_from_addressS (w : World) (address : String) (verbose : Bool)
    (s : PoolState) : PoolState × Except AppError Json :=
  let url := geocodeQueryUrl w address
  let p := withPool s (fun _ => w.fetch url)
  match p.2 with
  | .error (.fetchUrlDataError m) =>
    (p.1, .error (.getCoordsFromAddressError ("Error getting coordinates from address: " ++ m)))
  | .error e => (p.1, .error e)
  | .ok response =>
    match parse_json_response w.decode response with
    | .error e => (p.1, .error e)
    | .ok coords =>
      if !(jsonTruthy coords) then
        (p.1, .error (.getCoordsFromAddressError ("No coordinates found for address: " ++
          address ++ ". Verify that the address is valid.")))
      else if verbose then
        match (do
          let c0 ← pyIndex0 coords
          let _ ← pySubscript c0 "display_name"
          let _ ← pySubscript c0 "lat"
          let _ ← pySubscript c0 "lon"
          (.ok () : Except AppError Unit)) with
        | .error e => (p.1, .error e)
        | .ok _ => (p.1, .ok coords)
      else (p.1, .ok coords)

/-- Lift an optional CLI float to the Python value `build_url` receives
(`None` when the flag is absent). -/
def jsonOfOptFloat : Option ℚ → Json
  | none => .null
  | some q => .num q

/-- `get_weather_url` from weather_app.py: mode dispatch by TRUTHINESS of the
parsed fields (`if parsed_args.address: ... elif parsed_args.latitude: ...`),
falling through to `ParsedArgumentError` when both tests are falsy. -/
def get_weather_urlS (w : World) (ns : Namespace) (s : PoolState) :
    PoolState × Except AppError String :=
  if pyTruthyStrOpt ns.address then
    let a := ns.address.getD ""
    match sanitize_address a (w.usaddressParse a) with
    | .error e => (s, .error e)
    | .ok addr =>
      let p := get_coords_from_addressS w addr ns.verbose s
      match p.2 with
      | .error e => (p.1, .error e)
      | .ok coords =>
        (p.1, do
          let c0 ← pyIndex0 coords
          let la ← pySubscript c0 "lat"
          let lo ← pySubscript c0 "lon"
          build_url la lo)
  else if pyTruthyFloatOpt ns.latitude then
    (s, build_url (jsonOfOptFloat ns.latitude) (jsonOfOptFloat ns.longitude))
  else
    (s, .error (.parsedArgumentError
      "Failed to build URL: No valid address / coordinates provided."))

/-- How a run of `main` ended: a normal return (exit code 0), a handled
exception (`logging.error` then `sys.exit(1)`), or an exception class outside
the handled tuple (interpreter traceback). -/
inductive Termination where
  | normal
  | handledError (logged : String)
  | crashed (e : AppError)
deriving DecidableEq, Repr

/-- Is the exception class in the `except (...)` tuple of `main`? -/
def handledByMain : AppError → Bool
  | .buildUrlError _ => true
  | .fetchUrlDataError _ => true
  | .fetchWeatherDataError _ => true
  | .getCoordsFromAddressError _ => true
  | .parsedArgumentError _ => true
  | .addressMissingError _ => true
  | .parseAddressError _ => true
  | .valueError _ => true
  | _ => false

/-- Observable outcome of one run of `main`: termination, the lines printed by
`print`, the messages passed to `logging.error`, and the final pool state. -/
structure RunResult where
  term : Termination
  output : List String
  logged : List String
  pool : PoolState
deriving DecidableEq, Repr

/-- Process exit code of a run: 0 on normal return, 1 on `sys.exit(1)`, and 1
for an uncaught exception (the interpreter default). -/
def RunResult.exitCode (r : RunResult) : Nat :=
  match r.term with
  | .normal => 0
  | .handledError _ => 1
  | .crashed _ => 1

/-- Reaching the single catch point of `main` with exception `e`. -/
def finishWith (s : PoolState) (out : List String) (e : AppError) : RunResult :=
  if handledByMain e then ⟨.handledError e.msg, out, [e.msg], s⟩
  else ⟨.crashed e, out, [], s⟩

/-- `main` from weather_app.py: parse and validate the arguments, build the
forecast URL, fetch it inside a `with` scope, then `display_weather_data`
(whose swallowed `ValueError` leaves `main` on the normal path). -/
def runMain (w : World) (ns0 : Namespace) : RunResult :=
  match parse_args ns0 with
  | .error e => finishWith PoolState.init [] e
  | .ok ns =>
    let pu := get_weather_urlS w ns PoolState.init
    match pu.2 with
    | .error e => finishWith pu.1 [] e
    | .ok url =>
      let pf := withPool pu.1 (fun _ => w.fetch url)
      match pf.2 with
      | .error e => finishWith pf.1 [] e
      | .ok response =>
        let d := display_weather_data w.decode response
        match d.raised with
        | some e => finishWith pf.1 d.printed e
        | none => ⟨.normal, d.printed, d.logged, pf.1⟩

/-- C2: for every pair of rationals, `validate_latitude_longitude` returns true
iff the latitude lies in [-90, 90] and the longitude in [-180, 180]; outside
either range it returns false.  The function is pure (a Lean function), so it
has no side effects. -/
theorem C2_validate_coordinates_iff (lat long : ℚ) :
    validate_latitude_longitude lat long = true ↔
      (-90 ≤ lat ∧ lat ≤ 90 ∧ -180 ≤ long ∧ long ≤ 180) := by
  unfold validate_latitude_longitude
  by_cases h1 : (-90 : ℚ) ≤ lat <;> by_cases h2 : lat ≤ 90 <;>
    by_cases h3 : (-180 : ℚ) ≤ long <;> by_cases h4 : long ≤ 180 <;>
    simp [h1, h2, h3, h4]

/-- C7: `sanitize_address` rejects empty or whitespace-only input with the
address error of the sanitizer (raised as a Python `ValueError`), and on any
input passing the emptiness check whose parse yields labeled components it
returns the component tokens joined by single spaces in parser order, labels
discarded. -/
theorem C7_sanitize_spec (address : String) (pr : UsaddressResult) :
    ((address == "" || pyStrip address == "") = true →
      sanitize_address address pr =
        .error (.valueError ("Missing address. Input provided: " ++ address)))
    ∧ (∀ comps, (address == "" || pyStrip address == "") = false →
      pr = .ok (some comps) →
      sanitize_address address pr =
        .ok (String.intercalate " " (comps.map (fun p => p.1)))) := by
  constructor
  · intro h
    simp [sanitize_address, h]
  · intro comps h hpr
    subst hpr
    simp [sanitize_address, h]

/-- C7 witness: the empty address fails, and a four-token parse of the White
House address is rejoined with single spaces. -/
theorem C7_sanitize_spec_witness :
    sanitize_address "" (.ok (some [])) =
      .error (.valueError "Missing address. Input provided: ")
    ∧ sanitize_address "1600 pennsylvania ave washington dc"
        (.ok (some [("1600", "AddressNumber"), ("pennsylvania", "StreetName"),
          ("ave", "StreetNamePostType"), ("washington", "PlaceName"), ("dc", "StateName")])) =
      .ok "1600 pennsylvania ave washington dc" :=
  ⟨(C7_sanitize_spec "" (.ok (some []))).1 (by decide),
   (C7_sanitize_spec "1600 pennsylvania ave washington dc" _).2
     [("1600", "AddressNumber"), ("pennsylvania", "StreetName"),
      ("ave", "StreetNamePostType"), ("washington", "PlaceName"), ("dc", "StateName")]
     (by decide) rfl⟩

/-- C8: on input passing the emptiness check, a collaborator that reports no
parse result makes `sanitize_address` fail with `AddressMissingError` (the
spec's AddressError "no components" case), and a structural parse conflict
(`usaddress.RepeatedLabelError`) makes it fail with `ParseAddressError` whose
message carries both the partially-parsed string and the original string. -/
theorem C8_sanitize_collaborator_failures (address : String)
    (h : (address == "" || pyStrip address == "") = false) :
    sanitize_address address (.ok none) =
      .error (.addressMissingError
        ("Missing address from \x27usaddress\x27. Input provided: " ++ address))
    ∧ ∀ ps os, sanitize_address address (.error ⟨ps, os⟩) =
      .error (.parseAddressError ("Error parsing address: " ++ ps ++ ", " ++ os)) := by
  constructor
  · simp [sanitize_address, h]
  · intro ps os
    simp [sanitize_address, h]

/-- C8 witness: both collaborator failures at the concrete address "1600 penn". -/
theorem C8_sanitize_collaborator_failures_witness :
    sanitize_address "1600 penn" (.ok none) =
      .error (.addressMissingError
        "Missing address from \x27usaddress\x27. Input provided: 1600 penn")
    ∧ sanitize_address "1600 penn" (.error ⟨"1600 pe", "1600 penn"⟩) =
      .error (.parseAddressError "Error parsing address: 1600 pe, 1600 penn") :=
  ⟨(C8_sanitize_collaborator_failures "1600 penn" (by decide)).1,
   (C8_sanitize_collaborator_failures "1600 penn" (by decide)).2 "1600 pe" "1600 penn"⟩

/-- C10: arguments that pass validation but never reach URL construction: with
no address, latitude 0.0 and any in-range longitude, `parse_args` succeeds yet
`get_weather_url` raises `ParsedArgumentError` because the `elif` tests
truthiness (0.0 is falsy); an empty-string address likewise passes validation
and falls through both branches. -/
theorem C10_truthiness_fallthrough :
    (∀ lo : ℚ, -180 ≤ lo → lo ≤ 180 →
      parse_args ⟨none, some 0, some lo, false⟩ = .ok ⟨none, some 0, some lo, false⟩ ∧
      ∀ w s, (get_weather_urlS w ⟨none, some 0, some lo, false⟩ s).2 =
        .error (.parsedArgumentError
          "Failed to build URL: No valid address / coordinates provided."))
    ∧ (parse_args ⟨some "", none, none, false⟩ = .ok ⟨some "", none, none, false⟩ ∧
      ∀ w s, (get_weather_urlS w ⟨some "", none, none, false⟩ s).2 =
        .error (.parsedArgumentError
          "Failed to build URL: No valid address / coordinates provided.")) := by
  refine ⟨fun lo h1 h2 => ⟨?_, fun w s => ?_⟩, ?_, fun w s => ?_⟩
  · simp [parse_args, validate_latitude_longitude, h1, h2]
  · simp [get_weather_urlS, pyTruthyStrOpt, pyTruthyFloatOpt]
  · simp [parse_args]
  · simp [get_weather_urlS, pyTruthyStrOpt, pyTruthyFloatOpt]

/-- C10 witness: longitude 10 is in range, validation accepts (none, 0.0, 10.0)
and URL construction is never attempted. -/
theorem C10_truthiness_fallthrough_witness :
    parse_args ⟨none, some 0, some 10, false⟩ = .ok ⟨none, some 0, some 10, false⟩ ∧
    (get_weather_urlS ⟨fun _ => .ok none, fun _ => .error "e", fun _ => .ok "b", none⟩
        ⟨none, some 0, some 10, false⟩ PoolState.init).2 =
      .error (.parsedArgumentError
        "Failed to build URL: No valid address / coordinates provided.") :=
  ⟨(C10_truthiness_fallthrough.1 10 (by norm_num) (by norm_num)).1,
   (C10_truthiness_fallthrough.1 10 (by norm_num) (by norm_num)).2
     ⟨fun _ => .ok none, fun _ => .error "e", fun _ => .ok "b", none⟩ PoolState.init⟩

/-- Did the computation fail with the argument-validation error class
(`ParsedArgumentError`, the spec's InvalidArguments)? -/
def isParsedArgError (r : Except AppError Namespace) : Prop :=
  ∃ m, r = .error (.parsedArgumentError m)

/-- C3: `parse_args` fails with the argument-validation error when address and
a latitude or longitude are both set, when the lat/long pair is partial, or
when neither mode is supplied; it succeeds on an address alone and on an
in-range lat/long pair alone. -/
theorem C3_parse_args_mode_validation (ns : Namespace) :
    (ns.address.isSome = true → (ns.latitude.isSome = true ∨ ns.longitude.isSome = true) →
      isParsedArgError (parse_args ns))
    ∧ (ns.latitude.isSome ≠ ns.longitude.isSome → isParsedArgError (parse_args ns))
    ∧ (ns.address = none → ns.latitude = none → ns.longitude = none →
      isParsedArgError (parse_args ns))
    ∧ (ns.address.isSome = true → ns.latitude = none → ns.longitude = none →
      parse_args ns = .ok ns)
    ∧ (∀ la lo, ns.address = none → ns.latitude = some la → ns.longitude = some lo →
      validate_latitude_longitude la lo = true → parse_args ns = .ok ns) := by
  obtain ⟨a, la, lo, v⟩ := ns
  refine ⟨?_, ?_, ?_, ?_, ?_⟩
  · intro ha h
    cases a with
    | none => simp at ha
    | some a' =>
      rcases h with h | h
      · cases la with
        | none => simp at h
        | some q =>
          exact ⟨"Address and latitude/longitude cannot be provided together.",
            by simp [parse_args]⟩
      · cases lo with
        | none => simp at h
        | some q =>
          exact ⟨"Address and latitude/longitude cannot be provided together.",
            by simp [parse_args]⟩
  · intro h
    cases a <;> cases la <;> cases lo <;> simp_all [parse_args] <;> exact ⟨_, rfl⟩
  · intro ha hla hlo
    subst ha; subst hla; subst hlo
    exact ⟨"Either \x27--latitude\x27 and \x27--longitude\x27 pair, or \x27--address\x27 must be provided.",
      by simp [parse_args]⟩
  · intro ha hla hlo
    subst hla; subst hlo
    cases a with
    | none => simp at ha
    | some a' => simp [parse_args]
  · intro la' lo' ha hla hlo hv
    subst ha; subst hla; subst hlo
    simp [parse_args, hv]

/-- C3 witness: both flags of an in-range pair present and no address: accepted. -/
theorem C3_parse_args_mode_validation_witness :
    parse_args ⟨none, some (476/10), some (-1223/10), false⟩ =
      .ok ⟨none, some (476/10), some (-1223/10), false⟩ :=
  (C3_parse_args_mode_validation ⟨none, some (476/10), some (-1223/10), false⟩).2.2.2.2
    (476/10) (-1223/10) rfl rfl rfl (by norm_num [validate_latitude_longitude])

/-- C4: for every in-range pair of rationals, `build_url` returns the forecast
endpoint formatted with that latitude and longitude followed by the fixed
parameter block verbatim; the concrete call at (47.6, -122.3) contains
`latitude=47.6&longitude=-122.3` and the parameter block; out-of-range or
non-float-convertible inputs fail with `BuildUrlError` (the spec's
InvalidArguments). -/
theorem C4_build_url_spec :
    (∀ lat long : ℚ, validate_latitude_longitude lat long = true →
      build_url (.num lat) (.num long) =
        .ok (APIConfig.WEATHER_BASE_URL ++ "?latitude=" ++ floatStr lat ++ "&longitude=" ++
          floatStr long ++ "&" ++ APIConfig.DEFAULT_PARAMS))
    ∧ (∃ u, build_url (.num (476/10)) (.num (-1223/10)) = .ok u ∧
      strContains u "latitude=47.6&longitude=-122.3" = true ∧
      strContains u APIConfig.DEFAULT_PARAMS = true)
    ∧ (∀ lat long : ℚ, validate_latitude_longitude lat long = false →
      ∃ m, build_url (.num lat) (.num long) = .error (.buildUrlError m))
    ∧ (∀ j k : Json, ((∃ e, pyFloatE j = .error e) ∨ (∃ e, pyFloatE k = .error e)) →
      ∃ m, build_url j k = .error (.buildUrlError m)) := by
  refine ⟨?_, ?_, ?_, ?_⟩
  · intro lat long h
    simp [build_url, pyFloatE, h]
  · refine ⟨"https://api.open-meteo.com/v1/forecast?latitude=47.6&longitude=-122.3&current=temperature_2m,wind_speed_10m&temperature_unit=fahrenheit&wind_speed_unit=mph&timezone=auto", ?_, by decide, by decide⟩
    have hval : validate_latitude_longitude (476/10) (-1223/10) = true := by
      norm_num [validate_latitude_longitude]
    have h1 : floatStr (476/10) = "47.6" := by
      norm_num [floatStr, fracDigitsN]
      decide
    have h2 : floatStr (-1223/10) = "-122.3" := by
      norm_num [floatStr, fracDigitsN]
      decide
    simp [build_url, pyFloatE, hval, h1, h2, APIConfig.WEATHER_BASE_URL,
      APIConfig.DEFAULT_PARAMS]
  · intro lat long h
    exact ⟨"Invalid lat/long provided. Latitude: " ++ floatStr lat ++ ", Longitude: " ++
      floatStr long, by simp [build_url, pyFloatE, h]⟩
  · intro j k h
    unfold build_url
    rcases h with ⟨e, he⟩ | ⟨e, he⟩
    · rw [he]
      exact ⟨_, rfl⟩
    · cases hj : pyFloatE j with
      | error e' => exact ⟨_, rfl⟩
      | ok la =>
        rw [he]
        exact ⟨_, rfl⟩

/-- C4 witness: the theorem applied at (47.6, -122.3). -/
theorem C4_build_url_spec_witness :
    build_url (.num (476/10)) (.num (-1223/10)) =
      .ok (APIConfig.WEATHER_BASE_URL ++ "?latitude=" ++ floatStr (476/10) ++ "&longitude=" ++
        floatStr (-1223/10) ++ "&" ++ APIConfig.DEFAULT_PARAMS) :=
  C4_build_url_spec.1 (476/10) (-1223/10) (by norm_num [validate_latitude_longitude])

/-- A forecast payload containing all three required keys whose latitude value
is not float-convertible. -/
def payloadC5 : Json :=
  .obj [("latitude", .str "abc"), ("longitude", .intNum 0), ("current", .obj [])]

/-- C5 counterexample: this payload contains all three required keys (each
`in`-test succeeds), yet `WeatherData.from_dict` fails — `float("abc")` raises
— so "for every payload containing all three keys, construction succeeds" is
false on the code. -/
theorem C5_from_dict_counterexample :
    pyIn payloadC5 "latitude" = .ok true ∧
    pyIn payloadC5 "longitude" = .ok true ∧
    pyIn payloadC5 "current" = .ok true ∧
    WeatherData.from_dict payloadC5 =
      .error (.valueError "could not convert string to float: \x27abc\x27") :=
  ⟨rfl, rfl, rfl, rfl⟩

/-- C5 (amended): a payload missing any of the keys latitude, longitude or
current fails construction with the "missing required fields" error; a payload
with all three keys whose latitude and longitude are float-convertible
constructs successfully, and when the payload is the decoded forecast response
and its current block carries numeric measurements, the rendered output line
contains those literal values. -/
theorem C5_weather_payload_spec (decode : String → Except String Json) (resp : String)
    (fs curFs : List (String × Json)) (laj loj : Json) (la lo t wv : ℚ) :
    ((jsonLookup fs "latitude" = none ∨ jsonLookup fs "longitude" = none ∨
        jsonLookup fs "current" = none) →
      WeatherData.from_dict (.obj fs) =
        .error (.valueError "Missing required fields in weather data"))
    ∧ (jsonLookup fs "latitude" = some laj → pyFloatE laj = .ok la →
      jsonLookup fs "longitude" = some loj → pyFloatE loj = .ok lo →
      jsonLookup fs "current" = some (.obj curFs) →
      WeatherData.from_dict (.obj fs) = .ok ⟨la, lo, .obj curFs⟩ ∧
      (decode resp = .ok (.obj fs) →
        jsonLookup curFs "temperature_2m" = some (.num t) →
        jsonLookup curFs "wind_speed_10m" = some (.num wv) →
        display_weather_inner decode resp =
          .ok ("Temperature:\t" ++ floatStr t ++ "°\nWind Speed:\t" ++ floatStr wv ++
            " MPH"))) := by
  constructor
  · intro h
    rcases h with h | h | h <;>
      simp [WeatherData.from_dict, pyIn, h, Bind.bind, Except.bind]
  · intro hla hfla hlo hflo hcur
    have hok : WeatherData.from_dict (.obj fs) = .ok ⟨la, lo, .obj curFs⟩ := by
      simp [WeatherData.from_dict, pyIn, pySubscript, hla, hlo, hcur, hfla, hflo,
        Bind.bind, Except.bind]
    refine ⟨hok, fun hdec ht hw => ?_⟩
    simp [display_weather_inner, parse_json_response, hdec, hok, pyDictGet, ht, hw,
      pyStrOpt, pyStrJson, Bind.bind, Except.bind]

/-- A well-formed forecast payload with numeric fields. -/
def payloadC5good : Json :=
  .obj [("latitude", .num 47), ("longitude", .num 100),
        ("current", .obj [("temperature_2m", .num (725/10)), ("wind_speed_10m", .num 10)])]

/-- C5 witness: the amended theorem at a concrete payload with
temperature 72.5 renders the literal value in the output line. -/
theorem C5_weather_payload_spec_witness :
    WeatherData.from_dict payloadC5good =
      .ok ⟨47, 100, .obj [("temperature_2m", .num (725/10)), ("wind_speed_10m", .num 10)]⟩ ∧
    display_weather_inner (fun _ => .ok payloadC5good) "resp" =
      .ok "Temperature:\t72.5°\nWind Speed:\t10.0 MPH" := by
  have h := (C5_weather_payload_spec (fun _ => .ok payloadC5good) "resp"
    [("latitude", .num 47), ("longitude", .num 100),
     ("current", .obj [("temperature_2m", .num (725/10)), ("wind_speed_10m", .num 10)])]
    [("temperature_2m", .num (725/10)), ("wind_speed_10m", .num 10)]
    (.num 47) (.num 100) 47 100 (725/10) 10).2 rfl rfl rfl rfl rfl
  have ht : floatStr (725/10) = "72.5" := by
    norm_num [floatStr, fracDigitsN]
    decide
  have hw : floatStr 10 = "10.0" := by
    norm_num [floatStr]
    decide
  refine ⟨h.1, ?_⟩
  have h2 := h.2 rfl rfl rfl
  rw [ht, hw] at h2
  exact h2

/-- C6: given a geocoding response body, the geocoder fails with the
malformed-JSON `ValueError` wrapping the decoder failure when the body is not
valid JSON (the spec files this failure under its geocoding-stage GeocodeError
kind), fails with `GetCoordsFromAddressError` ("no results") when the decoded
value is empty, and returns the full candidate sequence when the decoded list
is non-empty.  Stated for a non-verbose run. -/
theorem C6_geocoder_spec (w : World) (address body : String) (s : PoolState)
    (hf : w.fetch (geocodeQueryUrl w address) = .ok body) :
    (∀ em, w.decode body = .error em →
      (get_coords_from_addressS w address false s).2 =
        .error (.valueError ("Malformed JSON response: " ++ em)))
    ∧ (∀ j, w.decode body = .ok j → jsonTruthy j = false →
      (get_coords_from_addressS w address false s).2 =
        .error (.getCoordsFromAddressError ("No coordinates found for address: " ++ address ++
          ". Verify that the address is valid.")))
    ∧ (∀ c rest, w.decode body = .ok (.arr (c :: rest)) →
      (get_coords_from_addressS w address false s).2 = .ok (.arr (c :: rest))) := by
  refine ⟨fun em hd => ?_, fun j hd ht => ?_, fun c rest hd => ?_⟩
  · simp [get_coords_from_addressS, withPool, hf, parse_json_response, hd]
  · simp [get_coords_from_addressS, withPool, hf, parse_json_response, hd, ht]
  · simp [get_coords_from_addressS, withPool, hf, parse_json_response, hd, jsonTruthy]

/-- World for the C6 witness: the transport returns a body that is not JSON. -/
def wC6 : World where
  usaddressParse := fun _ => .ok none
  decode := fun _ => .error "Expecting value: line 1 column 1 (char 0)"
  fetch := fun _ => .ok "not json"
  mapsApiKey := none

/-- C6 witness: the theorem at a concrete invalid-JSON body. -/
theorem C6_geocoder_spec_witness :
    (get_coords_from_addressS wC6 "addr" false PoolState.init).2 =
      .error (.valueError
        "Malformed JSON response: Expecting value: line 1 column 1 (char 0)") :=
  (C6_geocoder_spec wC6 "addr" "not json" PoolState.init rfl).1
    "Expecting value: line 1 column 1 (char 0)" rfl

/-- Invariant of the singleton pool state: releases track acquisitions exactly,
every acquisition so far returned instance 1, and either nothing was ever
constructed or exactly the one instance 1 was. -/
def poolInv (s : PoolState) : Prop :=
  s.clears = s.acquisitions ∧
  s.idsReturned.all (fun i => i == 1) = true ∧
  ((s.instId = none ∧ s.constructions = 0 ∧ s.nextId = 1) ∨
   (s.instId = some 1 ∧ s.constructions = 1))

/-- The initial pool state satisfies the invariant. -/
theorem poolInv_init : poolInv PoolState.init := by
  simp [poolInv, PoolState.init]

/-- One `with WeatherAPI.get_instance()` scope preserves the invariant. -/
theorem poolInv_withPool {α : Type} (s : PoolState) (body : Nat → Except AppError α)
    (h : poolInv s) : poolInv (withPool s body).1 := by
  obtain ⟨h1, h2, h3⟩ := h
  rcases h3 with ⟨hi, hc, hn⟩ | ⟨hi, hc⟩ <;>
    (simp [withPool, get_instance, poolInv, hi, hc, h1, h2]; try simp_all)

/-- Every branch of `get_coords_from_addressS` carries the pool state of its
single `with` scope. -/
theorem get_coords_pool (w : World) (a : String) (v : Bool) (s : PoolState) :
    (get_coords_from_addressS w a v s).1 =
      (withPool s (fun _ => w.fetch (geocodeQueryUrl w a))).1 := by
  unfold get_coords_from_addressS
  dsimp only
  repeat' split
  all_goals rfl

/-- `get_coords_from_addressS` preserves the pool invariant. -/
theorem poolInv_get_coords (w : World) (a : String) (v : Bool) (s : PoolState)
    (h : poolInv s) : poolInv (get_coords_from_addressS w a v s).1 := by
  rw [get_coords_pool]
  exact poolInv_withPool s _ h

/-- `get_weather_urlS` preserves the pool invariant. -/
theorem poolInv_get_weather_urlS (w : World) (ns : Namespace) (s : PoolState)
    (h : poolInv s) : poolInv (get_weather_urlS w ns s).1 := by
  unfold get_weather_urlS
  dsimp only
  split
  · split
    · exact h
    · rename_i addr hsan
      have hg := poolInv_get_coords w addr ns.verbose s h
      split <;> exact hg
  · split
    · exact h
    · exact h

/-- `finishWith` only records the pool state it was given. -/
theorem finishWith_pool (s : PoolState) (out : List String) (e : AppError) :
    (finishWith s out e).pool = s := by
  unfold finishWith
  split <;> rfl

/-- C9 (amended): within one run the pool is constructed at most once, every
acquisition returns the same instance (instance 1), and connections are
released exactly once per scoped acquisition — on success and failure paths
alike — rather than exactly once per run (an address-mode run acquires twice). -/
theorem C9_singleton_pool_discipline (w : World) (ns : Namespace) :
    (runMain w ns).pool.constructions ≤ 1 ∧
    (runMain w ns).pool.clears = (runMain w ns).pool.acquisitions ∧
    (runMain w ns).pool.idsReturned.all (fun i => i == 1) = true := by
  have hinv : poolInv (runMain w ns).pool := by
    unfold runMain
    dsimp only
    split
    · rw [finishWith_pool]
      exact poolInv_init
    · rename_i ns2 heq2
      have h1 := poolInv_get_weather_urlS w ns2 PoolState.init poolInv_init
      split
      · rw [finishWith_pool]
        exact h1
      · rename_i url hurl
        have h2 := poolInv_withPool (get_weather_urlS w ns2 PoolState.init).1
          (fun _ => w.fetch url) h1
        split
        · rw [finishWith_pool]
          exact h2
        · split
          · rw [finishWith_pool]
            exact h2
          · exact h2
  obtain ⟨h1, h2, h3⟩ := hinv
  refine ⟨?_, h1, h2⟩
  rcases h3 with ⟨_, hc, _⟩ | ⟨_, hc⟩ <;> omega

/-- Geocoding candidates for the C9 counterexample run. -/
def geoListC9 : Json :=
  .arr [.obj [("display_name", .str "White House"), ("lat", .num 47), ("lon", .num 100)]]

/-- Forecast payload for the C9 counterexample run. -/
def payloadC9 : Json :=
  .obj [("latitude", .num 47), ("longitude", .num 100),
        ("current", .obj [("temperature_2m", .intNum 72), ("wind_speed_10m", .intNum 10)])]

/-- World for the C9 counterexample: both external services answer successfully. -/
def wC9 : World where
  usaddressParse := fun _ => .ok (some [("1600", "AddressNumber"), ("penn", "StreetName")])
  decode := fun b => if b = "G" then .ok geoListC9 else .ok payloadC9
  fetch := fun u =>
    if u = "https://geocode.maps.co/search?q=1600 penn&api_key=None" then .ok "G" else .ok "W"
  mapsApiKey := none

/-- Arguments for the C9 counterexample: address mode. -/
def nsC9 : Namespace := ⟨some "1600 penn", none, none, false⟩

/-- C9 counterexample: a fully successful address-mode run (normal termination,
weather printed) acquires the singleton twice and calls `http.clear()` twice —
once inside `get_coords_from_address` and once in `main` — so the pooled
connections are not released exactly once at the end of the run. -/
theorem C9_release_twice_counterexample :
    (runMain wC9 nsC9).term = .normal ∧
    (runMain wC9 nsC9).output = ["Temperature:\t72°\nWind Speed:\t10 MPH"] ∧
    (runMain wC9 nsC9).pool.acquisitions = 2 ∧
    (runMain wC9 nsC9).pool.clears = 2 := by
  have hpa : parse_args nsC9 = .ok nsC9 := rfl
  have hval : validate_latitude_longitude 47 100 = true := by
    norm_num [validate_latitude_longitude]
  have h47 : floatStr 47 = "47.0" := by
    norm_num [floatStr]
    decide
  have h100 : floatStr 100 = "100.0" := by
    norm_num [floatStr]
    decide
  have hbu : build_url (.num 47) (.num 100) =
      .ok "https://api.open-meteo.com/v1/forecast?latitude=47.0&longitude=100.0&current=temperature_2m,wind_speed_10m&temperature_unit=fahrenheit&wind_speed_unit=mph&timezone=auto" := by
    simp [build_url, pyFloatE, hval, h47, h100, APIConfig.WEATHER_BASE_URL,
      APIConfig.DEFAULT_PARAMS]
  have hshape : get_weather_urlS wC9 nsC9 PoolState.init =
      (⟨some 1, 2, 1, 1, 1, [1]⟩, build_url (.num 47) (.num 100)) := rfl
  have hgw : get_weather_urlS wC9 nsC9 PoolState.init =
      (⟨some 1, 2, 1, 1, 1, [1]⟩,
        .ok "https://api.open-meteo.com/v1/forecast?latitude=47.0&longitude=100.0&current=temperature_2m,wind_speed_10m&temperature_unit=fahrenheit&wind_speed_unit=mph&timezone=auto") := by
    rw [hshape, hbu]
  have hrun : runMain wC9 nsC9 =
      ⟨.normal, ["Temperature:\t72°\nWind Speed:\t10 MPH"], [],
        ⟨some 1, 2, 1, 2, 2, [1, 1]⟩⟩ := by
    unfold runMain
    rw [hpa]
    dsimp only
    rw [hgw]
    rfl
  rw [hrun]
  exact ⟨rfl, rfl, rfl, rfl⟩

/-- World for the C1 run: the forecast fetch succeeds but its body is not
valid JSON (the decoder rejects every body). -/
def wC1 : World where
  usaddressParse := fun _ => .ok none
  decode := fun _ => .error "Expecting value: line 1 column 1 (char 0)"
  fetch := fun _ => .ok "oops"
  mapsApiKey := none

/-- Arguments for the C1 run: a valid in-range coordinate pair. -/
def nsC1 : Namespace := ⟨none, some 47, some 100, false⟩

/-- C1: a run with valid arguments whose forecast payload is malformed logs the
parse error but terminates normally with exit code 0, because
`display_weather_data` catches the `ValueError` itself and swallows it instead
of letting `main`'s catch-and-exit-1 handler see it.  No output is printed. -/
theorem C1_malformed_payload_exits_zero :
    (runMain wC1 nsC1).exitCode = 0 ∧
    (runMain wC1 nsC1).output = [] ∧
    (runMain wC1 nsC1).logged =
      ["Failed to parse weather data: Malformed JSON response: Expecting value: line 1 column 1 (char 0)"] := by
  have hval : validate_latitude_longitude 47 100 = true := by
    norm_num [validate_latitude_longitude]
  have hpa : parse_args nsC1 = .ok nsC1 := by
    simp [parse_args, nsC1, hval]
  have h47 : floatStr 47 = "47.0" := by
    norm_num [floatStr]
    decide
  have h100 : floatStr 100 = "100.0" := by
    norm_num [floatStr]
    decide
  have hbu : build_url (.num 47) (.num 100) =
      .ok "https://api.open-meteo.com/v1/forecast?latitude=47.0&longitude=100.0&current=temperature_2m,wind_speed_10m&temperature_unit=fahrenheit&wind_speed_unit=mph&timezone=auto" := by
    simp [build_url, pyFloatE, hval, h47, h100, APIConfig.WEATHER_BASE_URL,
      APIConfig.DEFAULT_PARAMS]
  have htr : pyTruthyFloatOpt (some (47 : ℚ)) = true := by
    norm_num [pyTruthyFloatOpt]
  have hfs : pyTruthyStrOpt (none : Option String) = false := rfl
  have hshape : get_weather_urlS wC1 nsC1 PoolState.init =
      (PoolState.init, build_url (.num 47) (.num 100)) := by
    simp [get_weather_urlS, hfs, htr, jsonOfOptFloat, nsC1]
  have hgw : get_weather_urlS wC1 nsC1 PoolState.init =
      (PoolState.init,
        .ok "https://api.open-meteo.com/v1/forecast?latitude=47.0&longitude=100.0&current=temperature_2m,wind_speed_10m&temperature_unit=fahrenheit&wind_speed_unit=mph&timezone=auto") := by
    rw [hshape, hbu]
  have hrun : runMain wC1 nsC1 =
      ⟨.normal, [],
        ["Failed to parse weather data: Malformed JSON response: Expecting value: line 1 column 1 (char 0)"],
        ⟨some 1, 2, 1, 1, 1, [1]⟩⟩ := by
    unfold runMain
    rw [hpa]
    dsimp only
    rw [hgw]
    rfl
  rw [hrun]
  exact ⟨rfl, rfl, rfl⟩
